import Mathlib

/-!
Verification development for the jump-detection core of the repository
(JumpMetrics.js, JumpEventDetector.js, and the three batch `detectJumpEvents`
variants in jumpApp.js / part_002 / part_003).

Numbers are modelled as rationals (`ℚ`).  `Math.sqrt` / `Math.hypot` return
irrational values in general, so every definition that needs them takes an
abstract square-root function `sqrt : ℚ → ℚ` as a parameter; structural
theorems are proved for every such function, and concrete evaluations use
`ratSqrt` below, which agrees with the real square root on all inputs used
(they are all squares of rationals).
-/

/-- A 3-vector of rationals, standing for the JS arrays `[x, y, z]`. -/
structure Vec3 where
  x : ℚ
  y : ℚ
  z : ℚ
deriving DecidableEq, Repr

/-- `dot(a, b)` from jumpApp.js / JumpEventDetector.js:
`a[0]*b[0] + a[1]*b[1] + a[2]*b[2]`. -/
def dotQ (a b : Vec3) : ℚ :=
  a.x * b.x + a.y * b.y + a.z * b.z

/-- The argument that `Math.hypot(a[0], a[1], a[2])` takes the square root of:
the sum of squares of the components.  `norm(a) = sqrt (normSq a)` for the
ambient square-root function. -/
def normSq (a : Vec3) : ℚ :=
  a.x * a.x + a.y * a.y + a.z * a.z

/-- Computable stand-in for the real square root: exact on every rational
that is the square of a rational (all concrete inputs below are). -/
def ratSqrt (q : ℚ) : ℚ :=
  (Nat.sqrt (q.num.toNat * q.den) : ℚ) / (q.den : ℚ)

/-! ## JumpMetrics.js -/

/-- `G0 = 9.80665` (m/s², standard gravity) from JumpMetrics.js. -/
def G0 : ℚ := 9.80665

/-- A `JumpEventTimes` object `{ tContactStart, tTakeoff, tLanding }`. -/
structure JumpEvent where
  tContactStart : ℚ
  tTakeoff : ℚ
  tLanding : ℚ
deriving DecidableEq, Repr

/-- `flightTime(evt)` from JumpMetrics.js: `tLanding - tTakeoff`, throwing
unless the difference is positive.  A thrown `Error` is modelled as
`Except.error` carrying the message. -/
def flightTime (evt : JumpEvent) : Except String ℚ :=
  let tf := evt.tLanding - evt.tTakeoff
  if 0 < tf then Except.ok tf
  else Except.error "flightTime: tLanding debe ser > tTakeoff."

/-- `heightFromFlightTime(tFlight, g)` from JumpMetrics.js:
`g * tFlight * tFlight / 8`, throwing unless `tFlight > 0`. -/
def heightFromFlightTime (tFlight g : ℚ) : Except String ℚ :=
  if 0 < tFlight then Except.ok (g * tFlight * tFlight / 8)
  else Except.error "heightFromFlightTime: tFlight debe ser > 0."

/-- `contactTime(evt)` from JumpMetrics.js: `tTakeoff - tContactStart`,
throwing unless the difference is positive. -/
def contactTime (evt : JumpEvent) : Except String ℚ :=
  let tc := evt.tTakeoff - evt.tContactStart
  if 0 < tc then Except.ok tc
  else Except.error "contactTime: tTakeoff debe ser > tContactStart."

/-- `rsi(heightMeters, tContact)` from JumpMetrics.js: `height / contact`,
throwing unless `heightMeters >= 0` and `tContact > 0` (in that order). -/
def rsi (heightMeters tContact : ℚ) : Except String ℚ :=
  if ¬ (0 ≤ heightMeters) then Except.error "rsi: heightMeters debe ser >= 0."
  else if ¬ (0 < tContact) then Except.error "rsi: tContact debe ser > 0."
  else Except.ok (heightMeters / tContact)

/-- One element of the `items` list built by `summarizeSeries`. -/
structure JumpItem where
  tf : ℚ
  h : ℚ
  tc : ℚ
  rsi : ℚ
  evt : JumpEvent
deriving DecidableEq, Repr

/-- The per-event loop of `summarizeSeries`: for each event compute
`flightTime`, `heightFromFlightTime`, `contactTime`, `rsi` and push the item;
the first thrown error aborts the whole computation (JS exception). -/
def seriesItems (g : ℚ) : List JumpEvent → Except String (List JumpItem)
  | [] => Except.ok []
  | evt :: rest =>
    match flightTime evt with
    | Except.error msg => Except.error msg
    | Except.ok tf =>
      match heightFromFlightTime tf g with
      | Except.error msg => Except.error msg
      | Except.ok h =>
        match contactTime evt with
        | Except.error msg => Except.error msg
        | Except.ok tc =>
          match rsi h tc with
          | Except.error msg => Except.error msg
          | Except.ok r =>
            match seriesItems g rest with
            | Except.error msg => Except.error msg
            | Except.ok tail =>
              Except.ok ({ tf := tf, h := h, tc := tc, rsi := r, evt := evt } :: tail)

/-- The record returned by `summarizeSeries`. -/
structure SeriesSummary where
  items : List JumpItem
  count : ℕ
  duration : ℚ
  cadence : ℚ
deriving DecidableEq, Repr

/-- `summarizeSeries(events, g)` from JumpMetrics.js.  `duration` is
`Math.max(0, max tLanding - min tContactStart)` over the events when there is
at least one, else `0`; `cadence = count / (duration / 60)` when
`duration > 0`, else `0`. -/
def summarizeSeries (g : ℚ) (events : List JumpEvent) : Except String SeriesSummary :=
  match seriesItems g events with
  | Except.error msg => Except.error msg
  | Except.ok items =>
    let count := items.length
    let duration : ℚ :=
      match events with
      | [] => 0
      | e :: es =>
        let start := es.foldl (fun m x => min m x.tContactStart) e.tContactStart
        let stop := es.foldl (fun m x => max m x.tLanding) e.tLanding
        max 0 (stop - start)
    let cadence := if 0 < duration then (count : ℚ) / (duration / 60) else 0
    Except.ok { items := items, count := count, duration := duration, cadence := cadence }

/-! ### Spec-side formulas for `summarize` (C5), written from the claim's
wording, to be compared with `summarizeSeries` above. -/

/-- The `{flightTime, height, contactTime, rsi}` record the claim says each
event is mapped to. -/
def specItem (g : ℚ) (e : JumpEvent) : JumpItem :=
  let tf := e.tLanding - e.tTakeoff
  let h := g * tf * tf / 8
  let tc := e.tTakeoff - e.tContactStart
  { tf := tf, h := h, tc := tc, rsi := h / tc, evt := e }

/-- The claim's duration: maximum `tLanding` minus minimum `tContactStart`
over the list, `0` for the empty list. -/
def specDuration (events : List JumpEvent) : ℚ :=
  match events with
  | [] => 0
  | e :: es =>
    (es.foldl (fun m x => max m x.tLanding) e.tLanding) -
      (es.foldl (fun m x => min m x.tContactStart) e.tContactStart)

/-- The claim's cadence: `count / (duration / 60)` when `duration > 0`,
else `0`. -/
def specCadence (events : List JumpEvent) : ℚ :=
  if 0 < specDuration events then
    (events.length : ℚ) / (specDuration events / 60)
  else 0

/-- An event on which every metrics function succeeds. -/
def validEvent (e : JumpEvent) : Prop :=
  e.tTakeoff < e.tLanding ∧ e.tContactStart < e.tTakeoff

instance (e : JumpEvent) : Decidable (validEvent e) := by
  unfold validEvent; infer_instance

/-! ### Helper lemmas about the metrics layer -/

theorem seriesItems_ok_of_valid (g : ℚ) (hg : 0 ≤ g) :
    ∀ events : List JumpEvent, (∀ e ∈ events, validEvent e) →
      seriesItems g events = Except.ok (events.map (specItem g)) := by
  intro events
  induction events with
  | nil => intro _; rfl
  | cons e es ih =>
    intro hval
    have he : validEvent e := hval e (List.mem_cons_self e es)
    have hes : ∀ x ∈ es, validEvent x := fun x hx => hval x (List.mem_cons_of_mem e hx)
    have htf : 0 < e.tLanding - e.tTakeoff := by
      have := he.1; linarith
    have htc : 0 < e.tTakeoff - e.tContactStart := by
      have := he.2; linarith
    have hh : 0 ≤ g * (e.tLanding - e.tTakeoff) * (e.tLanding - e.tTakeoff) / 8 := by
      have : 0 ≤ g * (e.tLanding - e.tTakeoff) * (e.tLanding - e.tTakeoff) := by
        apply mul_nonneg
        apply mul_nonneg hg (le_of_lt htf)
        exact le_of_lt htf
      linarith
    simp only [seriesItems, flightTime, heightFromFlightTime, contactTime, rsi,
      if_pos htf, if_pos htc, ih hes, if_neg (not_not_intro hh),
      if_neg (not_not_intro htc), List.map_cons]
    rfl

theorem foldl_min_le_init (es : List JumpEvent) :
    ∀ a : ℚ, es.foldl (fun m x => min m x.tContactStart) a ≤ a := by
  induction es with
  | nil => intro a; simp
  | cons e es ih =>
    intro a
    calc es.foldl (fun m x => min m x.tContactStart) (min a e.tContactStart)
        ≤ min a e.tContactStart := ih _
      _ ≤ a := min_le_left _ _

theorem init_le_foldl_max (es : List JumpEvent) :
    ∀ a : ℚ, a ≤ es.foldl (fun m x => max m x.tLanding) a := by
  induction es with
  | nil => intro a; simp
  | cons e es ih =>
    intro a
    calc a ≤ max a e.tLanding := le_max_left _ _
      _ ≤ es.foldl (fun m x => max m x.tLanding) (max a e.tLanding) := ih _

/-- For a nonempty list of valid events the raw span
`max tLanding − min tContactStart` is positive, so the code's
`Math.max(0, ·)` clamp never fires. -/
theorem specDuration_pos (e : JumpEvent) (es : List JumpEvent)
    (he : validEvent e) : 0 < specDuration (e :: es) := by
  show 0 < (es.foldl (fun m x => max m x.tLanding) e.tLanding) -
      (es.foldl (fun m x => min m x.tContactStart) e.tContactStart)
  have h1 := foldl_min_le_init es e.tContactStart
  have h2 := init_le_foldl_max es e.tLanding
  have : e.tContactStart < e.tLanding := lt_trans he.2 he.1
  linarith

/-- If some event in the list is invalid, the item loop of `summarizeSeries`
throws (the first failing metrics call aborts the computation). -/
theorem seriesItems_error_of_invalid (g : ℚ) :
    ∀ events : List JumpEvent, ¬ (∀ e ∈ events, validEvent e) →
      ∃ msg, seriesItems g events = Except.error msg := by
  intro events
  induction events with
  | nil => intro h; exact absurd (fun e he => absurd he (List.not_mem_nil e)) h
  | cons e es ih =>
    intro h
    by_cases hval : validEvent e
    · have hrest : ¬ ∀ x ∈ es, validEvent x := by
        intro hr
        apply h
        intro x hx
        rcases List.mem_cons.mp hx with h1 | h2
        · exact h1 ▸ hval
        · exact hr x h2
      obtain ⟨msg, hmsg⟩ := ih hrest
      have htf : 0 < e.tLanding - e.tTakeoff := by have := hval.1; linarith
      have htc : 0 < e.tTakeoff - e.tContactStart := by have := hval.2; linarith
      simp only [seriesItems, flightTime, heightFromFlightTime, contactTime,
        if_pos htf, if_pos htc, hmsg]
      cases hr : rsi (g * (e.tLanding - e.tTakeoff) * (e.tLanding - e.tTakeoff) / 8)
          (e.tTakeoff - e.tContactStart) with
      | error m => exact ⟨m, by simp [hr]⟩
      | ok r => exact ⟨msg, by simp [hr]⟩
    · by_cases h1 : e.tTakeoff < e.tLanding
      · have h2 : ¬ e.tContactStart < e.tTakeoff := fun h2 => hval ⟨h1, h2⟩
        have htf : 0 < e.tLanding - e.tTakeoff := by linarith
        have htc : ¬ 0 < e.tTakeoff - e.tContactStart := by
          intro hc; exact h2 (by linarith)
        refine ⟨"contactTime: tTakeoff debe ser > tContactStart.", ?_⟩
        simp only [seriesItems, flightTime, heightFromFlightTime, contactTime,
          if_pos htf, if_neg htc]
      · have htf : ¬ 0 < e.tLanding - e.tTakeoff := by
          intro hc; exact h1 (by linarith)
        refine ⟨"flightTime: tLanding debe ser > tTakeoff.", ?_⟩
        simp only [seriesItems, flightTime, if_neg htf]

/-- C5: for every list of (valid) jump events, `summarizeSeries` maps each
event to its `{flightTime, height, contactTime, rsi}` record, returns
`count` equal to the length of the list, `duration` equal to the maximum
`tLanding` minus the minimum `tContactStart` (0 for the empty list), and
`cadence = count / (duration / 60)` when `duration > 0`, else `0`; in
particular the empty list yields `count = 0`, `duration = 0`, `cadence = 0`. -/
theorem C5_summarize (events : List JumpEvent)
    (hval : ∀ e ∈ events, validEvent e) :
    summarizeSeries G0 events =
      Except.ok { items := events.map (specItem G0),
                  count := events.length,
                  duration := specDuration events,
                  cadence := specCadence events } := by
  have hg : (0 : ℚ) ≤ G0 := by norm_num [G0]
  have hitems := seriesItems_ok_of_valid G0 hg events hval
  cases events with
  | nil => norm_num [summarizeSeries, seriesItems, specDuration, specCadence]
  | cons e es =>
    have hpos := specDuration_pos e es (hval e (List.mem_cons_self e es))
    have hdmax : max 0 ((es.foldl (fun m x => max m x.tLanding) e.tLanding) -
        (es.foldl (fun m x => min m x.tContactStart) e.tContactStart)) =
        specDuration (e :: es) := by
      rw [max_eq_right]
      · rfl
      · exact le_of_lt hpos
    simp only [summarizeSeries, hitems, List.length_map, specCadence, hdmax]

/-- Witness for C5 at a concrete two-event series. -/
def C5events : List JumpEvent :=
  [{ tContactStart := 0, tTakeoff := 1/5, tLanding := 1/2 },
   { tContactStart := 1, tTakeoff := 13/10, tLanding := 17/10 }]

theorem C5_summarize_witness :
    (∀ e ∈ C5events, validEvent e) ∧
    summarizeSeries G0 C5events =
      Except.ok { items := C5events.map (specItem G0),
                  count := C5events.length,
                  duration := specDuration C5events,
                  cadence := specCadence C5events } :=
  ⟨by norm_num [C5events, validEvent],
   C5_summarize C5events (by norm_num [C5events, validEvent])⟩

/-- C6: for every `flightTime > 0` and gravity `g`, `heightFromFlightTime`
returns exactly `g * flightTime² / 8`, and for every `flightTime ≤ 0` it
fails (throws the `InvalidInput` error). -/
theorem C6_height (t g : ℚ) :
    (0 < t → heightFromFlightTime t g = Except.ok (g * t ^ 2 / 8)) ∧
    (t ≤ 0 → ∃ msg, heightFromFlightTime t g = Except.error msg) := by
  constructor
  · intro ht
    rw [heightFromFlightTime, if_pos ht]
    congr 1
    ring
  · intro ht
    exact ⟨_, by rw [heightFromFlightTime, if_neg (not_lt.mpr ht)]⟩

theorem C6_height_witness :
    ((0 : ℚ) < 3/10 ∧ heightFromFlightTime (3/10) G0 = Except.ok (G0 * (3/10) ^ 2 / 8)) ∧
    ((-1 : ℚ) ≤ 0 ∧ ∃ msg, heightFromFlightTime (-1) G0 = Except.error msg) :=
  ⟨⟨by norm_num, (C6_height (3/10) G0).1 (by norm_num)⟩,
   ⟨by norm_num, (C6_height (-1) G0).2 (by norm_num)⟩⟩

/-- The single event `{tContactStart: 0, tTakeoff: 0.2, tLanding: 0.5}`
from the spec's numeric example (C7). -/
def C7evt : JumpEvent := { tContactStart := 0, tTakeoff := 1/5, tLanding := 1/2 }

/-- C7 counterexample: the exact rsi of the example event is
`0.5516240625`, which is not within one half-unit of the fourth decimal of
the claimed `0.5513`. -/
theorem C7_counterexample :
    summarizeSeries G0 [C7evt] =
      Except.ok { items := [{ tf := 3/10, h := 0.1103248125, tc := 1/5,
                              rsi := 0.5516240625, evt := C7evt }],
                  count := 1, duration := 1/2, cadence := 120 } ∧
    ¬ |(0.5516240625 : ℚ) - 0.5513| ≤ 0.00005 := by
  constructor
  · norm_num [summarizeSeries, seriesItems, flightTime, heightFromFlightTime,
      contactTime, rsi, C7evt, G0, max_def]
  · rw [abs_of_pos (by norm_num)]
    norm_num

/-- C7 (amended): the example yields `flightTime = 0.3`,
`height = 0.1103248125 ≈ 0.1103`, `contactTime = 0.2`, and
`rsi = 0.5516240625 ≈ 0.5516` (not `0.5513`). -/
theorem C7_amended_example :
    summarizeSeries G0 [C7evt] =
      Except.ok { items := [{ tf := 0.3, h := 0.1103248125, tc := 0.2,
                              rsi := 0.5516240625, evt := C7evt }],
                  count := 1, duration := 0.5, cadence := 120 } ∧
    |(0.1103248125 : ℚ) - 0.1103| ≤ 0.00005 ∧
    |(0.5516240625 : ℚ) - 0.5516| ≤ 0.00005 := by
  refine ⟨?_, ?_, ?_⟩
  · norm_num [summarizeSeries, seriesItems, flightTime, heightFromFlightTime,
      contactTime, rsi, C7evt, G0, max_def]
  · rw [abs_of_pos (by norm_num)]; norm_num
  · rw [abs_of_pos (by norm_num)]; norm_num

/-- C8 counterexample: at the accepted height `0`, `rsi` returns `0` for
both contact times, so it is not strictly greater at the smaller contact
time. -/
theorem C8_counterexample :
    rsi 0 1 = Except.ok 0 ∧ rsi 0 2 = Except.ok 0 ∧ ¬ ((0 : ℚ) < 0) := by
  refine ⟨by norm_num [rsi], by norm_num [rsi], by norm_num⟩

/-- C8 (amended): for every fixed height `> 0` and contact times
`0 < tc1 < tc2`, `rsi height tc1 > rsi height tc2`; at height `0` the value
is `0` for every contact time, so on `height ≥ 0` the decrease is only
non-strict. -/
theorem C8_rsi_strictMono (h tc1 tc2 r1 r2 : ℚ) (hh : 0 < h) (h1 : 0 < tc1)
    (h12 : tc1 < tc2) (e1 : rsi h tc1 = Except.ok r1)
    (e2 : rsi h tc2 = Except.ok r2) : r2 < r1 := by
  have h2 : 0 < tc2 := lt_trans h1 h12
  rw [rsi, if_neg (not_not_intro (le_of_lt hh)), if_neg (not_not_intro h1)] at e1
  rw [rsi, if_neg (not_not_intro (le_of_lt hh)), if_neg (not_not_intro h2)] at e2
  injection e1 with e1'
  injection e2 with e2'
  rw [← e1', ← e2']
  exact div_lt_div_of_pos_left hh h1 h12

theorem C8_rsi_strictMono_witness :
    rsi 1 1 = Except.ok 1 ∧ rsi 1 2 = Except.ok (1/2) ∧ ((1 : ℚ)/2) < 1 :=
  ⟨by norm_num [rsi], by norm_num [rsi],
   C8_rsi_strictMono 1 1 2 1 (1/2) one_pos one_pos (by norm_num)
     (by norm_num [rsi]) (by norm_num [rsi])⟩

/-- C10: `summarizeSeries` absorbs no per-event anomaly: it returns normally
exactly when every event satisfies `tLanding > tTakeoff > tContactStart`;
otherwise the first failing `flightTime`/`contactTime` call throws and no
partial summary is returned. -/
theorem C10_summarize_ok_iff (events : List JumpEvent) :
    (∃ s, summarizeSeries G0 events = Except.ok s) ↔
      ∀ e ∈ events, validEvent e := by
  constructor
  · rintro ⟨s, hs⟩
    by_contra hinv
    obtain ⟨msg, hmsg⟩ := seriesItems_error_of_invalid G0 events hinv
    rw [summarizeSeries.eq_def, hmsg] at hs
    exact absurd hs (by simp)
  · intro hval
    rw [summarizeSeries.eq_def, seriesItems_ok_of_valid G0 (by norm_num [G0]) events hval]
    exact ⟨_, rfl⟩

/-! ## JumpEventDetector.js (part_005) -/

/-- `add(a, b)` from JumpEventDetector.js. -/
def addV (a b : Vec3) : Vec3 := ⟨a.x + b.x, a.y + b.y, a.z + b.z⟩

/-- `scale(a, k)` from JumpEventDetector.js. -/
def scaleV (a : Vec3) (k : ℚ) : Vec3 := ⟨a.x * k, a.y * k, a.z * k⟩

/-- Constructor options of `JumpEventDetector` after default resolution
(defaults: flightEpsMag 0.5, flightEpsVert 0.6, moveThresh 1.2,
restThresh 0.4, minFlight 0.10, maxFlight 1.20, minContact 0.08,
alpha 0.2).  `restThresh` is stored but never read by `_onMotion`. -/
structure DetCfg where
  gUnit : Vec3
  g0 : ℚ
  flightEpsMag : ℚ
  flightEpsVert : ℚ
  moveThresh : ℚ
  restThresh : ℚ
  minFlight : ℚ
  maxFlight : ℚ
  minContact : ℚ
  alpha : ℚ
deriving DecidableEq, Repr

/-- The mutable detector state of `JumpEventDetector`
(`_aVertEma`, `_aTotEma`, `_lastTs`, `_inFlight`, `_inMotion`,
`_tContactStart`, `_tTakeoff`, `_tLanding`). -/
structure MotionState where
  aVertEma : ℚ
  aTotEma : ℚ
  lastTs : Option ℚ
  inFlight : Bool
  inMotion : Bool
  tContactStart : Option ℚ
  tTakeoff : Option ℚ
  tLanding : Option ℚ
deriving DecidableEq, Repr

/-- One call of `JumpEventDetector._onMotion`.  The event argument is the
pair of `e.timeStamp` (ms) and the acceleration vector (`none` when the
event carries no acceleration, in which case the handler returns at once).
The returned `Option JumpEvent` is the event passed to `onJump`, if any.
JS notes: when `_inFlight` holds, `_tTakeoff`/`_tContactStart` are always
set (the takeoff branch backfills `_tContactStart`), so the `Option.getD`
fallbacks below (JS coerces `null` to `0` in arithmetic, and line 190 uses
`this._tContactStart ?? this._tTakeoff`) never fire on reachable states;
`_tLanding` is assigned `t` and then reset to `null` in the same call, so
the post-state stores `none`. -/
def onMotionStep (sqrt : ℚ → ℚ) (cfg : DetCfg) (st : MotionState)
    (tMs : ℚ) (acc : Option Vec3) : MotionState × Option JumpEvent :=
  match acc with
  | none => (st, none)
  | some aVec =>
    let t := tMs / 1000
    let aVertInc := dotQ aVec cfg.gUnit
    let aVert := aVertInc - cfg.g0
    let aTot := sqrt (normSq aVec)
    let aVertEma := cfg.alpha * aVert + (1 - cfg.alpha) * st.aVertEma
    let aTotEma := cfg.alpha * aTot + (1 - cfg.alpha) * st.aTotEma
    if st.inFlight = false then
      let inMotion1 :=
        if |aVertEma| > cfg.moveThresh ∧ st.inMotion = false then true else st.inMotion
      let tcs1 :=
        if |aVertEma| > cfg.moveThresh ∧ st.inMotion = false then some t
        else st.tContactStart
      if |aTotEma - cfg.g0| < cfg.flightEpsMag ∧ |aVertEma| < cfg.flightEpsVert then
        let tcs2 := (match tcs1 with
          | none => some (max 0 (t - 0.20))
          | some v => some v)
        ({ st with
            aVertEma := aVertEma
            aTotEma := aTotEma
            lastTs := some tMs
            inFlight := true
            inMotion := inMotion1
            tContactStart := tcs2
            tTakeoff := some t }, none)
      else
        ({ st with
            aVertEma := aVertEma
            aTotEma := aTotEma
            lastTs := some tMs
            inMotion := inMotion1
            tContactStart := tcs1 }, none)
    else
      if ¬ (|aTotEma - cfg.g0| < cfg.flightEpsMag ∧ |aVertEma| < cfg.flightEpsVert) then
        let tk := st.tTakeoff.getD 0
        let tf := t - tk
        let tc := tk - (st.tContactStart.getD tk)
        let evt :=
          if tf ≥ cfg.minFlight ∧ tf ≤ cfg.maxFlight ∧ tc ≥ cfg.minContact then
            some { tContactStart := st.tContactStart.getD tk, tTakeoff := tk,
                   tLanding := t }
          else none
        ({ st with
            aVertEma := aVertEma
            aTotEma := aTotEma
            lastTs := some tMs
            inFlight := false
            inMotion := false
            tContactStart := none
            tTakeoff := none
            tLanding := none }, evt)
      else
        ({ st with
            aVertEma := aVertEma
            aTotEma := aTotEma
            lastTs := some tMs }, none)

/-- `JumpEventDetector.calibrate` error outcomes: the two `reject` sites. -/
inductive CalibError where
  | insufficientSamples
  | implausibleGravity
deriving DecidableEq, Repr

/-- The validation stage of `JumpEventDetector.calibrate`, applied to the
collected acceleration vectors once the wall-clock window has elapsed:
fewer than 10 samples rejects with `insufficientSamples`; then
`g0 = norm(mean)` outside `(5, 15)` bounds (strict `g0 < 5 || g0 > 15`)
rejects with `implausibleGravity`; otherwise resolves `{g0, gUnit}`. -/
def calibValidate (sqrt : ℚ → ℚ) (samples : List Vec3) :
    Except CalibError (ℚ × Vec3) :=
  if samples.length < 10 then Except.error CalibError.insufficientSamples
  else
    let sum := samples.foldl (fun s v => addV s v) ⟨0, 0, 0⟩
    let mean := scaleV sum (1 / (samples.length : ℚ))
    let g0 := sqrt (normSq mean)
    if g0 < 5 ∨ 15 < g0 then Except.error CalibError.implausibleGravity
    else Except.ok (g0, scaleV mean (1 / g0))

/-- The gravity magnitude `calibValidate` derives from a sample list
(`norm` of the arithmetic mean vector). -/
def calibG0 (sqrt : ℚ → ℚ) (samples : List Vec3) : ℚ :=
  sqrt (normSq (scaleV (samples.foldl (fun s v => addV s v) ⟨0, 0, 0⟩)
    (1 / (samples.length : ℚ))))

/-- One `devicemotion` callback during `calibrate`'s collection phase:
the wall-clock time `performance.now()` at which the callback runs, the
event's own `e.timeStamp`, and its acceleration (or `none`). -/
structure Arrival where
  wallT : ℚ
  sampleT : ℚ
  acc : Option Vec3
deriving DecidableEq, Repr

/-- The collection loop of `JumpEventDetector.calibrate` (`onCalib`):
each callback with acceleration pushes its vector, then stops listening
as soon as `performance.now() - t0 >= ms`; callbacks without acceleration
return before the elapsed-time check.  The event's own timestamp
(`sampleT`) is never read. -/
def calibCollect (ms t0 : ℚ) : List Arrival → List Vec3
  | [] => []
  | a :: rest =>
    match a.acc with
    | none => calibCollect ms t0 rest
    | some v =>
      if a.wallT - t0 ≥ ms then [v]
      else v :: calibCollect ms t0 rest

/-! ## The three batch `detectJumpEvents` variants -/

/-- The options bag `opts` of the batch detectors; a `none` field means the
option was omitted and the variant's default applies. -/
structure JOpts where
  alpha : Option ℚ
  flightEpsMag : Option ℚ
  flightEpsVert : Option ℚ
  moveThresh : Option ℚ
  minFlight : Option ℚ
  maxFlight : Option ℚ
  minContact : Option ℚ
  calibMs : Option ℚ
deriving DecidableEq, Repr

/-- A motion sample `{ t, ax, ay, az }` (t in msets as in the JS arrays). -/
structure Sample where
  t : ℚ
  ax : ℚ
  ay : ℚ
  az : ℚ
deriving DecidableEq, Repr

/-- The calibration slice of the batch detectors:
`samples.filter((s) => s.t - t0 <= calibMs)` with `t0 = samples[0].t`. -/
def calibWindow (calibMs : ℚ) (samples : List Sample) : List Sample :=
  match samples with
  | [] => []
  | s0 :: _ => samples.filter (fun s => s.t - s0.t ≤ calibMs)

/-- The per-sample loop parameters of a batch detector after default
resolution. -/
structure BParams where
  alpha : ℚ
  flightEpsMag : ℚ
  flightEpsVert : ℚ
  moveThresh : ℚ
  minFlight : ℚ
  maxFlight : ℚ
  minContact : ℚ
deriving DecidableEq, Repr

/-- The loop state of a batch detector, including the accumulating
`events` array. -/
structure BatchState where
  aVertEma : ℚ
  aTotEma : ℚ
  inFlight : Bool
  inMotion : Bool
  tContactStart : Option ℚ
  tTakeoff : Option ℚ
  events : List JumpEvent
deriving DecidableEq, Repr

/-- The body of the per-sample `for` loop of `detectJumpEvents` in
jumpApp.js (lines 58-97).  When `inFlight` holds, `tTakeoff` and
`tContactStart` are always `some` (the takeoff branch backfills), so the
`Option.getD` fallbacks (JS `null` coerces to 0 in arithmetic; line 90
uses `tContactStart ?? tTakeoff`) never fire on states reachable from the
initial state. -/
def stepB_jumpApp (sqrt : ℚ → ℚ) (p : BParams) (g0 : ℚ) (gUnit : Vec3)
    (t0 : ℚ) (st : BatchState) (s : Sample) : BatchState :=
  let t := (s.t - t0) / 1000
  let aVec : Vec3 := ⟨s.ax, s.ay, s.az⟩
  let aVertInc := dotQ aVec gUnit
  let aVert := aVertInc - g0
  let aTot := sqrt (normSq aVec)
  let aVertEma := p.alpha * aVert + (1 - p.alpha) * st.aVertEma
  let aTotEma := p.alpha * aTot + (1 - p.alpha) * st.aTotEma
  if st.inFlight = false then
    let inMotion1 :=
      if |aVertEma| > p.moveThresh ∧ st.inMotion = false then true else st.inMotion
    let tcs1 :=
      if |aVertEma| > p.moveThresh ∧ st.inMotion = false then some t
      else st.tContactStart
    if |aTotEma - g0| < p.flightEpsMag ∧ |aVertEma| < p.flightEpsVert then
      let tcs2 := (match tcs1 with
        | none => some (max 0 (t - 0.2))
        | some v => some v)
      { st with
          aVertEma := aVertEma
          aTotEma := aTotEma
          inFlight := true
          inMotion := inMotion1
          tContactStart := tcs2
          tTakeoff := some t }
    else
      { st with
          aVertEma := aVertEma
          aTotEma := aTotEma
          inMotion := inMotion1
          tContactStart := tcs1 }
  else
    if ¬ (|aTotEma - g0| < p.flightEpsMag ∧ |aVertEma| < p.flightEpsVert) then
      let tLanding := t
      let tk := st.tTakeoff.getD 0
      let tf := tLanding - tk
      let tc := tk - (st.tContactStart.getD tk)
      let events1 :=
        if tf ≥ p.minFlight ∧ tf ≤ p.maxFlight ∧ tc ≥ p.minContact then
          st.events ++
            [{ tContactStart := st.tContactStart.getD tk, tTakeoff := tk,
               tLanding := tLanding }]
        else st.events
      { st with
          aVertEma := aVertEma
          aTotEma := aTotEma
          inFlight := false
          inMotion := false
          tContactStart := none
          tTakeoff := none
          events := events1 }
    else
      { st with
          aVertEma := aVertEma
          aTotEma := aTotEma }

/-- `detectJumpEvents(samples, opts)` from jumpApp.js (defaults:
alpha 0.2, flightEpsMag 0.5, flightEpsVert 0.6, moveThresh 1.2,
minFlight 0.1, maxFlight 1.2, minContact 0.08, calibMs 500).
For `calibMs < 0` the JS calibration mean is `NaN` (division by zero);
over `ℚ` the division yields 0 — no claim touches that corner. -/
def detectJumpEvents_jumpApp (sqrt : ℚ → ℚ) (opts : JOpts)
    (samples : List Sample) : List JumpEvent :=
  let alpha := opts.alpha.getD 0.2
  let flightEpsMag := opts.flightEpsMag.getD 0.5
  let flightEpsVert := opts.flightEpsVert.getD 0.6
  let moveThresh := opts.moveThresh.getD 1.2
  let minFlight := opts.minFlight.getD 0.1
  let maxFlight := opts.maxFlight.getD 1.2
  let minContact := opts.minContact.getD 0.08
  match samples with
  | [] => []
  | s0 :: _ =>
    let t0 := s0.t
    let calibMs := opts.calibMs.getD 500
    let calib := calibWindow calibMs samples
    let gSum := calib.foldl
      (fun acc v => Vec3.mk (acc.x + v.ax) (acc.y + v.ay) (acc.z + v.az))
      ⟨0, 0, 0⟩
    let gMean := Vec3.mk (gSum.x / (calib.length : ℚ))
      (gSum.y / (calib.length : ℚ)) (gSum.z / (calib.length : ℚ))
    let g0 := sqrt (normSq gMean)
    let gUnit := Vec3.mk (gMean.x / g0) (gMean.y / g0) (gMean.z / g0)
    let p : BParams :=
      ⟨alpha, flightEpsMag, flightEpsVert, moveThresh, minFlight, maxFlight,
       minContact⟩
    (samples.foldl (stepB_jumpApp sqrt p g0 gUnit t0)
      ⟨0, g0, false, false, none, none, []⟩).events

/-- The body of the per-sample `for` loop of `detectJumpEvents` in
part_002 (lines 73-112); textually identical to the jumpApp.js loop. -/
def stepB_part002 (sqrt : ℚ → ℚ) (p : BParams) (g0 : ℚ) (gUnit : Vec3)
    (t0 : ℚ) (st : BatchState) (s : Sample) : BatchState :=
  let t := (s.t - t0) / 1000
  let aVec : Vec3 := ⟨s.ax, s.ay, s.az⟩
  let aVertInc := dotQ aVec gUnit
  let aVert := aVertInc - g0
  let aTot := sqrt (normSq aVec)
  let aVertEma := p.alpha * aVert + (1 - p.alpha) * st.aVertEma
  let aTotEma := p.alpha * aTot + (1 - p.alpha) * st.aTotEma
  if st.inFlight = false then
    let inMotion1 :=
      if |aVertEma| > p.moveThresh ∧ st.inMotion = false then true else st.inMotion
    let tcs1 :=
      if |aVertEma| > p.moveThresh ∧ st.inMotion = false then some t
      else st.tContactStart
    if |aTotEma - g0| < p.flightEpsMag ∧ |aVertEma| < p.flightEpsVert then
      let tcs2 := (match tcs1 with
        | none => some (max 0 (t - 0.2))
        | some v => some v)
      { st with
          aVertEma := aVertEma
          aTotEma := aTotEma
          inFlight := true
          inMotion := inMotion1
          tContactStart := tcs2
          tTakeoff := some t }
    else
      { st with
          aVertEma := aVertEma
          aTotEma := aTotEma
          inMotion := inMotion1
          tContactStart := tcs1 }
  else
    if ¬ (|aTotEma - g0| < p.flightEpsMag ∧ |aVertEma| < p.flightEpsVert) then
      let tLanding := t
      let tk := st.tTakeoff.getD 0
      let tf := tLanding - tk
      let tc := tk - (st.tContactStart.getD tk)
      let events1 :=
        if tf ≥ p.minFlight ∧ tf ≤ p.maxFlight ∧ tc ≥ p.minContact then
          st.events ++
            [{ tContactStart := st.tContactStart.getD tk, tTakeoff := tk,
               tLanding := tLanding }]
        else st.events
      { st with
          aVertEma := aVertEma
          aTotEma := aTotEma
          inFlight := false
          inMotion := false
          tContactStart := none
          tTakeoff := none
          events := events1 }
    else
      { st with
          aVertEma := aVertEma
          aTotEma := aTotEma }

/-- `detectJumpEvents(samples, opts)` from part_002 (defaults:
alpha 0.2, flightEpsMag 0.4, flightEpsVert 0.5, moveThresh 1.0,
minFlight 0.1, maxFlight 1.2, minContact 0.08, calibMs 500). -/
def detectJumpEvents_part002 (sqrt : ℚ → ℚ) (opts : JOpts)
    (samples : List Sample) : List JumpEvent :=
  let alpha := opts.alpha.getD 0.2
  let flightEpsMag := opts.flightEpsMag.getD 0.4
  let flightEpsVert := opts.flightEpsVert.getD 0.5
  let moveThresh := opts.moveThresh.getD 1.0
  let minFlight := opts.minFlight.getD 0.1
  let maxFlight := opts.maxFlight.getD 1.2
  let minContact := opts.minContact.getD 0.08
  match samples with
  | [] => []
  | s0 :: _ =>
    let t0 := s0.t
    let calibMs := opts.calibMs.getD 500
    let calib := calibWindow calibMs samples
    let gSum := calib.foldl
      (fun acc v => Vec3.mk (acc.x + v.ax) (acc.y + v.ay) (acc.z + v.az))
      ⟨0, 0, 0⟩
    let gMean := Vec3.mk (gSum.x / (calib.length : ℚ))
      (gSum.y / (calib.length : ℚ)) (gSum.z / (calib.length : ℚ))
    let g0 := sqrt (normSq gMean)
    let gUnit := Vec3.mk (gMean.x / g0) (gMean.y / g0) (gMean.z / g0)
    let p : BParams :=
      ⟨alpha, flightEpsMag, flightEpsVert, moveThresh, minFlight, maxFlight,
       minContact⟩
    (samples.foldl (stepB_part002 sqrt p g0 gUnit t0)
      ⟨0, g0, false, false, none, none, []⟩).events

/-- The body of the per-sample `for` loop of `detectJumpEvents` in
part_003 (lines 67-106); textually identical to the jumpApp.js loop. -/
def stepB_part003 (sqrt : ℚ → ℚ) (p : BParams) (g0 : ℚ) (gUnit : Vec3)
    (t0 : ℚ) (st : BatchState) (s : Sample) : BatchState :=
  let t := (s.t - t0) / 1000
  let aVec : Vec3 := ⟨s.ax, s.ay, s.az⟩
  let aVertInc := dotQ aVec gUnit
  let aVert := aVertInc - g0
  let aTot := sqrt (normSq aVec)
  let aVertEma := p.alpha * aVert + (1 - p.alpha) * st.aVertEma
  let aTotEma := p.alpha * aTot + (1 - p.alpha) * st.aTotEma
  if st.inFlight = false then
    let inMotion1 :=
      if |aVertEma| > p.moveThresh ∧ st.inMotion = false then true else st.inMotion
    let tcs1 :=
      if |aVertEma| > p.moveThresh ∧ st.inMotion = false then some t
      else st.tContactStart
    if |aTotEma - g0| < p.flightEpsMag ∧ |aVertEma| < p.flightEpsVert then
      let tcs2 := (match tcs1 with
        | none => some (max 0 (t - 0.2))
        | some v => some v)
      { st with
          aVertEma := aVertEma
          aTotEma := aTotEma
          inFlight := true
          inMotion := inMotion1
          tContactStart := tcs2
          tTakeoff := some t }
    else
      { st with
          aVertEma := aVertEma
          aTotEma := aTotEma
          inMotion := inMotion1
          tContactStart := tcs1 }
  else
    if ¬ (|aTotEma - g0| < p.flightEpsMag ∧ |aVertEma| < p.flightEpsVert) then
      let tLanding := t
      let tk := st.tTakeoff.getD 0
      let tf := tLanding - tk
      let tc := tk - (st.tContactStart.getD tk)
      let events1 :=
        if tf ≥ p.minFlight ∧ tf ≤ p.maxFlight ∧ tc ≥ p.minContact then
          st.events ++
            [{ tContactStart := st.tContactStart.getD tk, tTakeoff := tk,
               tLanding := tLanding }]
        else st.events
      { st with
          aVertEma := aVertEma
          aTotEma := aTotEma
          inFlight := false
          inMotion := false
          tContactStart := none
          tTakeoff := none
          events := events1 }
    else
      { st with
          aVertEma := aVertEma
          aTotEma := aTotEma }

/-- `detectJumpEvents(samples, opts)` from part_003 (defaults:
alpha 0.2, flightEpsMag 0.4, flightEpsVert 0.5, moveThresh 1.0,
minFlight 0.1, maxFlight 1.2, minContact 0.08, calibMs 500). -/
def detectJumpEvents_part003 (sqrt : ℚ → ℚ) (opts : JOpts)
    (samples : List Sample) : List JumpEvent :=
  let alpha := opts.alpha.getD 0.2
  let flightEpsMag := opts.flightEpsMag.getD 0.4
  let flightEpsVert := opts.flightEpsVert.getD 0.5
  let moveThresh := opts.moveThresh.getD 1.0
  let minFlight := opts.minFlight.getD 0.1
  let maxFlight := opts.maxFlight.getD 1.2
  let minContact := opts.minContact.getD 0.08
  match samples with
  | [] => []
  | s0 :: _ =>
    let t0 := s0.t
    let calibMs := opts.calibMs.getD 500
    let calib := calibWindow calibMs samples
    let gSum := calib.foldl
      (fun acc v => Vec3.mk (acc.x + v.ax) (acc.y + v.ay) (acc.z + v.az))
      ⟨0, 0, 0⟩
    let gMean := Vec3.mk (gSum.x / (calib.length : ℚ))
      (gSum.y / (calib.length : ℚ)) (gSum.z / (calib.length : ℚ))
    let g0 := sqrt (normSq gMean)
    let gUnit := Vec3.mk (gMean.x / g0) (gMean.y / g0) (gMean.z / g0)
    let p : BParams :=
      ⟨alpha, flightEpsMag, flightEpsVert, moveThresh, minFlight, maxFlight,
       minContact⟩
    (samples.foldl (stepB_part003 sqrt p g0 gUnit t0)
      ⟨0, g0, false, false, none, none, []⟩).events

/-- C9: when all of alpha, flightEpsMag, flightEpsVert, moveThresh,
minFlight, maxFlight, minContact and calibMs are explicitly supplied (and
therefore equal across calls), the three batch `detectJumpEvents` variants
return identical event lists for every sample list; they differ only in the
defaults used for omitted options. -/
theorem C9_variants_agree (sqrt : ℚ → ℚ) (a f1 f2 mv mf xf mc cm : ℚ)
    (samples : List Sample) :
    detectJumpEvents_jumpApp sqrt
        ⟨some a, some f1, some f2, some mv, some mf, some xf, some mc, some cm⟩
        samples =
      detectJumpEvents_part002 sqrt
        ⟨some a, some f1, some f2, some mv, some mf, some xf, some mc, some cm⟩
        samples ∧
    detectJumpEvents_part002 sqrt
        ⟨some a, some f1, some f2, some mv, some mf, some xf, some mc, some cm⟩
        samples =
      detectJumpEvents_part003 sqrt
        ⟨some a, some f1, some f2, some mv, some mf, some xf, some mc, some cm⟩
        samples := by
  constructor <;> rfl

/-- C1 (amended): the detector step has no timestamp-ordering guard.  For
every sample carrying acceleration data — whatever its timestamp, including
one equal to or smaller than `_lastTs` — `_onMotion` updates both EMA
channels by the smoothing recurrence and overwrites `_lastTs`, and the
batch loop body updates both EMA channels for every sample.  (The only
no-op input is a callback without acceleration data.) -/
theorem C1_amended_no_timestamp_guard (sqrt : ℚ → ℚ) (cfg : DetCfg)
    (st : MotionState) (tMs : ℚ) (aVec : Vec3) (p : BParams) (g0 : ℚ)
    (gU : Vec3) (t0 : ℚ) (bst : BatchState) (s : Sample) :
    ((onMotionStep sqrt cfg st tMs (some aVec)).1.aVertEma =
        cfg.alpha * (dotQ aVec cfg.gUnit - cfg.g0) +
          (1 - cfg.alpha) * st.aVertEma ∧
      (onMotionStep sqrt cfg st tMs (some aVec)).1.aTotEma =
        cfg.alpha * sqrt (normSq aVec) + (1 - cfg.alpha) * st.aTotEma ∧
      (onMotionStep sqrt cfg st tMs (some aVec)).1.lastTs = some tMs) ∧
    ((stepB_jumpApp sqrt p g0 gU t0 bst s).aVertEma =
        p.alpha * (dotQ ⟨s.ax, s.ay, s.az⟩ gU - g0) +
          (1 - p.alpha) * bst.aVertEma ∧
      (stepB_jumpApp sqrt p g0 gU t0 bst s).aTotEma =
        p.alpha * sqrt (normSq ⟨s.ax, s.ay, s.az⟩) +
          (1 - p.alpha) * bst.aTotEma) := by
  refine ⟨⟨?_, ?_, ?_⟩, ?_, ?_⟩ <;>
    · simp only [onMotionStep, stepB_jumpApp]
      split <;> (try split) <;> rfl

theorem ratSqrt_zero : ratSqrt 0 = 0 := by
  have h : ((0 : ℚ).num.toNat * (0 : ℚ).den) = 0 := rfl
  rw [ratSqrt, h]
  norm_num

theorem ratSqrt_one : ratSqrt 1 = 1 := by
  have h : ((1 : ℚ).num.toNat * (1 : ℚ).den) = 1 := rfl
  rw [ratSqrt, h]
  norm_num [show ((1 : ℚ).den : ℚ) = 1 from rfl]

theorem ratSqrt_nine : ratSqrt 9 = 3 := by
  have h : ((9 : ℚ).num.toNat * (9 : ℚ).den) = 9 := rfl
  rw [ratSqrt, h]
  norm_num [show ((9 : ℚ).den : ℚ) = 1 from rfl]

/-- Detector configuration for the C1 counterexample: gravity `(0, 1, 0)`
of magnitude 9.8, all thresholds at their documented defaults. -/
def C1cfg : DetCfg :=
  { gUnit := ⟨0, 1, 0⟩, g0 := 9.8, flightEpsMag := 0.5, flightEpsVert := 0.6,
    moveThresh := 1.2, restThresh := 0.4, minFlight := 0.1, maxFlight := 1.2,
    minContact := 0.08, alpha := 0.2 }

/-- Detector state for the C1 counterexample: at rest on the ground with
`_lastTs = 5` ms already recorded. -/
def C1st : MotionState :=
  { aVertEma := 0, aTotEma := 9.8, lastTs := some 5, inFlight := false,
    inMotion := false, tContactStart := none, tTakeoff := none,
    tLanding := none }

/-- C1 counterexample: a sample whose timestamp (5 ms) is not strictly
greater than the last processed timestamp (`_lastTs = 5` ms) is processed
anyway: the EMA filter state moves from 0 to −1.96, the `_inMotion` phase
flag flips to `true`, and a pending contact marker is created. -/
theorem C1_counterexample :
    C1st.lastTs = some 5 ∧ C1st.aVertEma = 0 ∧ C1st.inMotion = false ∧
    C1st.tContactStart = none ∧
    onMotionStep ratSqrt C1cfg C1st 5 (some ⟨0, 0, 0⟩) =
      ({ aVertEma := -49/25, aTotEma := 196/25, lastTs := some 5,
         inFlight := false, inMotion := true, tContactStart := some (1/200),
         tTakeoff := none, tLanding := none }, none) := by
  refine ⟨rfl, rfl, rfl, rfl, ?_⟩
  norm_num [onMotionStep, C1cfg, C1st, dotQ, normSq, ratSqrt_zero,
    abs_of_nonpos, abs_of_nonneg]

/-- The validation bounds an emitted event must satisfy:
`tLanding − tTakeoff ∈ [minFlight, maxFlight]` and
`tTakeoff − tContactStart ≥ minContact`. -/
def eventWithin (minFlight maxFlight minContact : ℚ) (e : JumpEvent) : Prop :=
  minFlight ≤ e.tLanding - e.tTakeoff ∧ e.tLanding - e.tTakeoff ≤ maxFlight ∧
    minContact ≤ e.tTakeoff - e.tContactStart

instance (a b c : ℚ) (e : JumpEvent) : Decidable (eventWithin a b c e) := by
  unfold eventWithin; infer_instance

/-- Any event present in the loop state after one batch step either was
already there or passed the landing guard, so the bounds are preserved. -/
theorem stepB_jumpApp_events_within (sqrt : ℚ → ℚ) (p : BParams) (g0 : ℚ)
    (gU : Vec3) (t0 : ℚ) (st : BatchState) (s : Sample)
    (hst : ∀ e ∈ st.events, eventWithin p.minFlight p.maxFlight p.minContact e) :
    ∀ e ∈ (stepB_jumpApp sqrt p g0 gU t0 st s).events,
      eventWithin p.minFlight p.maxFlight p.minContact e := by
  intro e he
  simp only [stepB_jumpApp] at he
  split at he
  · split at he
    · exact hst e he
    · exact hst e he
  · split at he
    · simp only at he
      split at he
      · rename_i hguard
        rcases List.mem_append.mp he with hin | hnew
        · exact hst e hin
        · rcases List.mem_singleton.mp hnew with rfl
          exact ⟨hguard.1, hguard.2.1, hguard.2.2⟩
      · exact hst e he
    · exact hst e he

/-- The bounds invariant carries through the whole batch fold. -/
theorem foldl_stepB_events_within (sqrt : ℚ → ℚ) (p : BParams) (g0 : ℚ)
    (gU : Vec3) (t0 : ℚ) :
    ∀ (samples : List Sample) (st : BatchState),
      (∀ e ∈ st.events, eventWithin p.minFlight p.maxFlight p.minContact e) →
      ∀ e ∈ (samples.foldl (stepB_jumpApp sqrt p g0 gU t0) st).events,
        eventWithin p.minFlight p.maxFlight p.minContact e := by
  intro samples
  induction samples with
  | nil => intro st hst; simpa using hst
  | cons s ss ih =>
    intro st hst
    rw [List.foldl_cons]
    exact ih _ (stepB_jumpApp_events_within sqrt p g0 gU t0 st s hst)

/-- C2: every event the detector emits satisfies the flight and contact
bounds — it is emitted on a Flight-to-Ground transition only if
`tLanding − tTakeoff ∈ [minFlight, maxFlight]` and
`tTakeoff − tContactStart ≥ minContact` — and hence (whenever
`minFlight > 0` and `minContact ≥ 0`, as in the defaults 0.10 and 0.08)
`tLanding > tTakeoff ≥ tContactStart`; moreover on every flight exit the
contact/takeoff markers are unconditionally cleared back to the ground
state, whether or not the candidate passed.  Stated for the batch detector
(`detectJumpEvents_jumpApp`) and for `_onMotion`. -/
theorem C2_emitted_events (sqrt : ℚ → ℚ) (opts : JOpts)
    (samples : List Sample) (cfg : DetCfg) (mst : MotionState) (tMs : ℚ)
    (acc : Option Vec3) (p : BParams) (g0 : ℚ) (gU : Vec3) (t0 : ℚ)
    (bst : BatchState) (s : Sample)
    (h1 : 0 < opts.minFlight.getD 0.1) (h2 : 0 ≤ opts.minContact.getD 0.08)
    (h3 : 0 < cfg.minFlight) (h4 : 0 ≤ cfg.minContact)
    (h5 : mst.inFlight = true) (h6 : bst.inFlight = true) :
    (∀ e ∈ detectJumpEvents_jumpApp sqrt opts samples,
        eventWithin (opts.minFlight.getD 0.1) (opts.maxFlight.getD 1.2)
          (opts.minContact.getD 0.08) e ∧
        e.tTakeoff < e.tLanding ∧ e.tContactStart ≤ e.tTakeoff) ∧
    (∀ e ∈ (onMotionStep sqrt cfg mst tMs acc).2,
        eventWithin cfg.minFlight cfg.maxFlight cfg.minContact e ∧
        e.tTakeoff < e.tLanding ∧ e.tContactStart ≤ e.tTakeoff) ∧
    ((onMotionStep sqrt cfg mst tMs acc).1.inFlight = true ∨
      ((onMotionStep sqrt cfg mst tMs acc).1.tContactStart = none ∧
        (onMotionStep sqrt cfg mst tMs acc).1.tTakeoff = none ∧
        (onMotionStep sqrt cfg mst tMs acc).1.tLanding = none ∧
        (onMotionStep sqrt cfg mst tMs acc).1.inFlight = false ∧
        (onMotionStep sqrt cfg mst tMs acc).1.inMotion = false)) ∧
    ((stepB_jumpApp sqrt p g0 gU t0 bst s).inFlight = true ∨
      ((stepB_jumpApp sqrt p g0 gU t0 bst s).tContactStart = none ∧
        (stepB_jumpApp sqrt p g0 gU t0 bst s).tTakeoff = none ∧
        (stepB_jumpApp sqrt p g0 gU t0 bst s).inFlight = false ∧
        (stepB_jumpApp sqrt p g0 gU t0 bst s).inMotion = false)) := by
  refine ⟨?_, ?_, ?_, ?_⟩
  · -- batch detector: all emitted events satisfy the guard bounds
    intro e he
    have hwithin : eventWithin (opts.minFlight.getD 0.1)
        (opts.maxFlight.getD 1.2) (opts.minContact.getD 0.08) e := by
      rcases samples with _ | ⟨s0, rest⟩
      · simp [detectJumpEvents_jumpApp] at he
      · simp only [detectJumpEvents_jumpApp] at he
        exact foldl_stepB_events_within sqrt _ _ _ _ (s0 :: rest) _
          (by intro x hx; simp at hx) e he
    refine ⟨hwithin, ?_, ?_⟩
    · have := hwithin.1; linarith
    · have := hwithin.2.2; linarith
  · -- _onMotion: the emitted event passed the guard
    rcases acc with _ | aVec
    · intro e he; simp [onMotionStep] at he
    · intro e he
      simp only [onMotionStep] at he
      split at he
      · split at he <;> simp at he
      · split at he
        · split at he
          · rename_i hguard
            simp only [Option.mem_def, Option.some.injEq] at he
            subst he
            refine ⟨⟨hguard.1, hguard.2.1, hguard.2.2⟩, ?_, ?_⟩
            · show mst.tTakeoff.getD 0 < tMs / 1000
              have h := hguard.1
              linarith
            · show mst.tContactStart.getD (mst.tTakeoff.getD 0) ≤
                mst.tTakeoff.getD 0
              have h := hguard.2.2
              linarith
          · simp at he
        · simp at he
  · -- _onMotion: markers unconditionally cleared on flight exit
    rcases acc with _ | aVec
    · left; simpa [onMotionStep] using h5
    · simp only [onMotionStep]
      split
      · rename_i hnf
        exact absurd h5 (by simpa using hnf)
      · split
        · right; exact ⟨rfl, rfl, rfl, rfl, rfl⟩
        · left; exact h5
  · -- batch step: markers unconditionally cleared on flight exit
    simp only [stepB_jumpApp]
    split
    · rename_i hnf
      exact absurd h6 (by simpa using hnf)
    · split
      · right; exact ⟨rfl, rfl, rfl, rfl⟩
      · left; exact h6

/-- Options for the concrete batch runs: `alpha` explicitly 1 (EMA follows
the raw signal), everything else left to the jumpApp.js defaults. -/
def C3opts : JOpts :=
  { alpha := some 1, flightEpsMag := none, flightEpsVert := none,
    moveThresh := none, minFlight := none, maxFlight := none,
    minContact := none, calibMs := none }

/-- A concrete sample stream (t in ms): two calibration samples averaging
to gravity `(0, 1, 0)` of magnitude 1, then a flight-classified sample at
1 s and a landing sample at 1.3 s.  Every `Math.hypot` argument is a
perfect square (9, 1, 1, 9), so `ratSqrt` agrees with the real square
root throughout this run. -/
def C3samples : List Sample :=
  [{ t := 0, ax := 0, ay := 3, az := 0 },
   { t := 100, ax := 0, ay := -1, az := 0 },
   { t := 1000, ax := 0, ay := 1, az := 0 },
   { t := 1300, ax := 0, ay := 3, az := 0 }]

/-- Loop parameters matching `C3opts` under the jumpApp.js defaults. -/
def C2p : BParams :=
  { alpha := 1, flightEpsMag := 0.5, flightEpsVert := 0.6, moveThresh := 1.2,
    minFlight := 0.1, maxFlight := 1.2, minContact := 0.08 }

/-- An in-flight `_onMotion` state about to land. -/
def C2mst : MotionState :=
  { aVertEma := 0, aTotEma := 49/5, lastTs := some 1200, inFlight := true,
    inMotion := true, tContactStart := some 0, tTakeoff := some 1,
    tLanding := none }

/-- An in-flight batch loop state about to land. -/
def C2bst : BatchState :=
  { aVertEma := 0, aTotEma := 49/5, inFlight := true, inMotion := true,
    tContactStart := some 0, tTakeoff := some 1, events := [] }

theorem C2_emitted_events_witness :
    (0 < C3opts.minFlight.getD 0.1) ∧ (0 ≤ C3opts.minContact.getD 0.08) ∧
    (0 < C1cfg.minFlight) ∧ (0 ≤ C1cfg.minContact) ∧
    C2mst.inFlight = true ∧ C2bst.inFlight = true ∧
    ((∀ e ∈ detectJumpEvents_jumpApp ratSqrt C3opts C3samples,
        eventWithin (C3opts.minFlight.getD 0.1) (C3opts.maxFlight.getD 1.2)
          (C3opts.minContact.getD 0.08) e ∧
        e.tTakeoff < e.tLanding ∧ e.tContactStart ≤ e.tTakeoff) ∧
      (∀ e ∈ (onMotionStep ratSqrt C1cfg C2mst 1300 (some ⟨0, 3, 0⟩)).2,
        eventWithin C1cfg.minFlight C1cfg.maxFlight C1cfg.minContact e ∧
        e.tTakeoff < e.tLanding ∧ e.tContactStart ≤ e.tTakeoff) ∧
      ((onMotionStep ratSqrt C1cfg C2mst 1300 (some ⟨0, 3, 0⟩)).1.inFlight = true ∨
        ((onMotionStep ratSqrt C1cfg C2mst 1300 (some ⟨0, 3, 0⟩)).1.tContactStart = none ∧
          (onMotionStep ratSqrt C1cfg C2mst 1300 (some ⟨0, 3, 0⟩)).1.tTakeoff = none ∧
          (onMotionStep ratSqrt C1cfg C2mst 1300 (some ⟨0, 3, 0⟩)).1.tLanding = none ∧
          (onMotionStep ratSqrt C1cfg C2mst 1300 (some ⟨0, 3, 0⟩)).1.inFlight = false ∧
          (onMotionStep ratSqrt C1cfg C2mst 1300 (some ⟨0, 3, 0⟩)).1.inMotion = false)) ∧
      ((stepB_jumpApp ratSqrt C2p 1 ⟨0, 1, 0⟩ 0 C2bst ⟨1300, 0, 3, 0⟩).inFlight = true ∨
        ((stepB_jumpApp ratSqrt C2p 1 ⟨0, 1, 0⟩ 0 C2bst ⟨1300, 0, 3, 0⟩).tContactStart = none ∧
          (stepB_jumpApp ratSqrt C2p 1 ⟨0, 1, 0⟩ 0 C2bst ⟨1300, 0, 3, 0⟩).tTakeoff = none ∧
          (stepB_jumpApp ratSqrt C2p 1 ⟨0, 1, 0⟩ 0 C2bst ⟨1300, 0, 3, 0⟩).inFlight = false ∧
          (stepB_jumpApp ratSqrt C2p 1 ⟨0, 1, 0⟩ 0 C2bst ⟨1300, 0, 3, 0⟩).inMotion = false))) := by
  refine ⟨by norm_num [C3opts], by norm_num [C3opts], by norm_num [C1cfg],
    by norm_num [C1cfg], rfl, rfl, ?_⟩
  exact C2_emitted_events ratSqrt C3opts C3samples C1cfg C2mst 1300
    (some ⟨0, 3, 0⟩) C2p 1 ⟨0, 1, 0⟩ 0 C2bst ⟨1300, 0, 3, 0⟩
    (by norm_num [C3opts]) (by norm_num [C3opts]) (by norm_num [C1cfg])
    (by norm_num [C1cfg]) rfl rfl

/-- C3 (amended): `JumpEventDetector.calibrate`'s validation fails with
`InsufficientSamples` exactly when fewer than 10 samples were collected,
and with `ImplausibleGravity` exactly when at least 10 were collected but
the norm `g0` of their mean is outside `[5, 15]`; it succeeds exactly when
neither holds.  This blocks only the live detector path: the batch
`detectJumpEvents` performs no such validation (see the counterexample,
where it classifies and emits with `g0 = 1` from a 2-sample window). -/
theorem C3_amended_calibrate (sqrt : ℚ → ℚ) (samples : List Vec3) :
    (calibValidate sqrt samples = Except.error CalibError.insufficientSamples ↔
      samples.length < 10) ∧
    (calibValidate sqrt samples = Except.error CalibError.implausibleGravity ↔
      (¬ samples.length < 10 ∧
        (calibG0 sqrt samples < 5 ∨ 15 < calibG0 sqrt samples))) ∧
    ((∃ r, calibValidate sqrt samples = Except.ok r) ↔
      (¬ samples.length < 10 ∧
        ¬ (calibG0 sqrt samples < 5 ∨ 15 < calibG0 sqrt samples))) := by
  simp only [calibValidate, calibG0]
  split_ifs with h1 h2 <;> simp_all

/-- The concrete batch run: the detector proceeds on `C3samples` and emits
one event even though its 2-sample calibration window would fail both
validation checks. -/
theorem detect_jumpApp_C3_eval :
    detectJumpEvents_jumpApp ratSqrt C3opts C3samples =
      [{ tContactStart := 0, tTakeoff := 1, tLanding := 13/10 }] := by
  norm_num [detectJumpEvents_jumpApp, stepB_jumpApp, calibWindow, C3opts,
    C3samples, dotQ, normSq, ratSqrt_one, ratSqrt_nine, List.filter_cons,
    decide_eq_true_eq, abs_of_nonpos, abs_of_nonneg]

/-- C3 counterexample: the calibration window of `C3samples` holds 2
samples (fewer than 10) with mean gravity magnitude 1 (outside `[5, 15]`);
`calibrate`'s validator rejects exactly this data, yet `detectJumpEvents`
proceeds to classify with the unvalidated estimate and emits an event. -/
theorem C3_counterexample :
    calibWindow 500 C3samples =
      [{ t := 0, ax := 0, ay := 3, az := 0 },
       { t := 100, ax := 0, ay := -1, az := 0 }] ∧
    calibValidate ratSqrt [⟨0, 3, 0⟩, ⟨0, -1, 0⟩] =
      Except.error CalibError.insufficientSamples ∧
    calibG0 ratSqrt [⟨0, 3, 0⟩, ⟨0, -1, 0⟩] = 1 ∧ ((1 : ℚ) < 5) ∧
    detectJumpEvents_jumpApp ratSqrt C3opts C3samples =
      [{ tContactStart := 0, tTakeoff := 1, tLanding := 13/10 }] := by
  refine ⟨?_, ?_, ?_, by norm_num, detect_jumpApp_C3_eval⟩
  · norm_num [calibWindow, C3samples, List.filter_cons, decide_eq_true_eq]
  · norm_num [calibValidate]
  · norm_num [calibG0, addV, scaleV, normSq, ratSqrt_one]

/-- C4 (amended): in the batch detectors the calibration window contains
exactly the samples whose own-timestamp offset from the first sample is at
most `calibMs`; in the live `calibrate` (part_005), membership is instead
determined by wall-clock callback arrival (every acceleration-bearing
callback arriving before `windowDuration` of wall-clock time elapses is
collected), and the samples' own timestamps are never read — formally, the
collected list is invariant under arbitrary rewriting of the
`e.timeStamp` values. -/
theorem C4_amended_window :
    (∀ (calibMs : ℚ) (s0 : Sample) (rest : List Sample) (s : Sample),
      s ∈ calibWindow calibMs (s0 :: rest) ↔
        (s ∈ s0 :: rest ∧ s.t - s0.t ≤ calibMs)) ∧
    (∀ (ms t0 : ℚ) (f : ℚ → ℚ) (l : List Arrival),
      calibCollect ms t0 (l.map (fun a => { a with sampleT := f a.sampleT })) =
        calibCollect ms t0 l) := by
  constructor
  · intro calibMs s0 rest s
    simp [calibWindow, List.mem_filter]
  · intro ms t0 f l
    induction l with
    | nil => rfl
    | cons a l ih =>
      simp only [List.map_cons, calibCollect]
      cases h : a.acc <;> simp [h, ih]

/-- Arrival log for the C4 counterexample: three callbacks whose samples
carry timestamps 0, 10, 20 ms (all within a 2000 ms window of the first
sample), but whose wall-clock arrival times are 0, 3000 and 4000 ms. -/
def C4arrivals : List Arrival :=
  [{ wallT := 0, sampleT := 0, acc := some ⟨0, 1, 0⟩ },
   { wallT := 3000, sampleT := 10, acc := some ⟨0, 2, 0⟩ },
   { wallT := 4000, sampleT := 20, acc := some ⟨0, 3, 0⟩ }]

/-- C4 counterexample: with `windowDuration = 2000` ms, the third sample's
own-timestamp offset from the first sample is 20 ms ≤ 2000, yet
`calibrate`'s collection loop excludes it (it arrived after the wall-clock
window closed), so the window does not contain exactly the samples within
`windowDuration` of the first sample's timestamp. -/
theorem C4_counterexample :
    calibCollect 2000 0 C4arrivals = [⟨0, 1, 0⟩, ⟨0, 2, 0⟩] ∧
    (({ wallT := 4000, sampleT := 20, acc := some ⟨0, 3, 0⟩ } : Arrival).sampleT -
      ({ wallT := 0, sampleT := 0, acc := some ⟨0, 1, 0⟩ } : Arrival).sampleT
        ≤ 2000) ∧
    (⟨0, 3, 0⟩ : Vec3) ∉ calibCollect 2000 0 C4arrivals := by
  refine ⟨?_, by norm_num, ?_⟩
  · norm_num [calibCollect, C4arrivals]
  · norm_num [calibCollect, C4arrivals, Vec3.mk.injEq]
